import Mathlib

/-!
Shallow embedding of `download_model.py` (CosyVoice model downloader).

The script is a sequential orchestrator: it resolves model identifiers
against a static catalog `MODELS`, fetches each one via either the
ModelScope SDK (`download_via_sdk`) or `git clone` (`download_via_git`),
optionally runs a post-install step (`install_ttsfrd`), and prints a
summary line.

External effects are modelled explicitly:
  * `Env` fixes the outcome of every external capability the script can
    invoke (SDK import, snapshot download, git / git-lfs presence, clone
    exit status, operator's answer to `input()`, unzip presence and exit
    status, the file set inside `resource.zip`, pip exit statuses).
  * `FS` is the visible filesystem state (a set of directories and files).
  * `Event` records each observable action in order: prints, directory
    creation, attempted invocations of external commands, and the operator
    confirmation suspension point.

A Python function that can raise an exception which the script does NOT
catch is embedded as `Except PyError _`; exceptions the script catches are
folded into the boolean return value, exactly as the source does.
-/

namespace DownloadModel

/-- One entry of the static `MODELS` table (keys `name`, `repo`,
`local_dir`, `git_url`, `description` of the Python dict). -/
structure ModelEntry where
  name : String
  repo : String
  local_dir : String
  git_url : String
  description : String
deriving Repr, DecidableEq

/-- The `MODELS` dict of the script, in insertion order. -/
def MODELS : List (String × ModelEntry) :=
  [ ("cosyvoice2",
     ⟨"CosyVoice2-0.5B", "iic/CosyVoice2-0.5B",
      "pretrained_models/CosyVoice2-0.5B",
      "https://www.modelscope.cn/iic/CosyVoice2-0.5B.git",
      "Latest CosyVoice 2.0 model (Recommended)"⟩),
    ("cosyvoice-300m",
     ⟨"CosyVoice-300M", "iic/CosyVoice-300M",
      "pretrained_models/CosyVoice-300M",
      "https://www.modelscope.cn/iic/CosyVoice-300M.git",
      "Base CosyVoice 300M model"⟩),
    ("sft",
     ⟨"CosyVoice-300M-SFT", "iic/CosyVoice-300M-SFT",
      "pretrained_models/CosyVoice-300M-SFT",
      "https://www.modelscope.cn/iic/CosyVoice-300M-SFT.git",
      "CosyVoice 300M SFT (Supervised Fine-Tuning) model"⟩),
    ("instruct",
     ⟨"CosyVoice-300M-Instruct", "iic/CosyVoice-300M-Instruct",
      "pretrained_models/CosyVoice-300M-Instruct",
      "https://www.modelscope.cn/iic/CosyVoice-300M-Instruct.git",
      "CosyVoice 300M Instruct model"⟩),
    ("ttsfrd",
     ⟨"CosyVoice-ttsfrd", "iic/CosyVoice-ttsfrd",
      "pretrained_models/CosyVoice-ttsfrd",
      "https://www.modelscope.cn/iic/CosyVoice-ttsfrd.git",
      "Text normalization resources"⟩) ]

/-- Python `MODELS[model_key]` as a partial lookup: `none` corresponds to
the `KeyError` case. -/
def lookupModel (k : String) : Option ModelEntry :=
  (MODELS.find? (fun p => p.1 == k)).map Prod.snd

/-- `list(MODELS.keys())` (insertion order). -/
def modelKeys : List String := MODELS.map Prod.fst

/-- Filesystem state visible to the script: which directories and which
files exist. -/
structure FS where
  dirs : List String
  files : List String
deriving Repr, DecidableEq

def FS.dirExists (fs : FS) (d : String) : Bool := fs.dirs.contains d

def FS.fileExists (fs : FS) (f : String) : Bool := fs.files.contains f

/-- `os.makedirs(d, exist_ok=True)` / a directory appearing: idempotent. -/
def FS.addDir (fs : FS) (d : String) : FS :=
  if fs.dirs.contains d then fs else { fs with dirs := d :: fs.dirs }

def FS.addFile (fs : FS) (f : String) : FS :=
  if fs.files.contains f then fs else { fs with files := f :: fs.files }

/-- Add a list of files (extraction of an archive, `unzip -o`: existing
contents are overwritten in place, so the resulting file set is the union). -/
def FS.addFiles (fs : FS) (l : List String) : FS := l.foldl FS.addFile fs

/-- Fixed outcomes of every external capability the script can touch
during one run. -/
structure Env where
  /-- `from modelscope import snapshot_download` succeeds. -/
  modelscopeAvailable : Bool
  /-- `snapshot_download(repo, ...)` returns without raising. -/
  snapshotDownloadOk : String → Bool
  /-- `check_git_lfs()` observable result: `git lfs version` exists and
  exits 0 (a missing `git` binary also yields `False` in the source). -/
  gitLfsInstalled : Bool
  /-- the operator's answer to `input("\nContinue anyway? (y/N): ")`. -/
  operatorResponse : String
  /-- the `git` executable exists (so `subprocess.run(['git','clone',...])`
  does not raise `FileNotFoundError`). -/
  gitInstalled : Bool
  /-- `git clone url local_dir` exits 0. -/
  cloneOk : String → Bool
  /-- the `unzip` executable exists. -/
  unzipInstalled : Bool
  /-- `unzip -o resource.zip -d dir` exits 0. -/
  unzipOk : Bool
  /-- the file paths that a successful extraction of `resource.zip` places
  inside the ttsfrd directory. -/
  archiveContents : List String
  /-- `pip install <wheel>` exits 0. -/
  pipOk : String → Bool

/-- Observable actions, in program order.  An invocation event is recorded
when the script attempts the external operation (whether or not it then
succeeds; `Env` fixes the result). -/
inductive Event where
  | print (s : String)
  | makedirs (d : String)
  | snapshot (repo : String) (dest : String)
  | gitClone (url : String) (dest : String)
  | promptUser (msg : String)
  | unzipRun (zip : String) (dest : String)
  | pipInstall (whl : String)
deriving Repr, DecidableEq

/-- Python exceptions that escape the script's own handlers. -/
inductive PyError where
  | keyError (k : String)
deriving Repr, DecidableEq

/-- The `'='*60` banner used by the script's headers. -/
def bannerLine : String := String.mk (List.replicate 60 '=')

/-- `check_git_lfs()`: `True` iff `git lfs version` ran and exited 0. -/
def check_git_lfs (env : Env) : Bool := env.gitLfsInstalled

/-- Header prints of `download_via_sdk`. -/
def sdkHeader (model : ModelEntry) : List Event :=
  [ .print ("\n" ++ bannerLine),
    .print ("Downloading " ++ model.name ++ " via ModelScope SDK..."),
    .print ("Description: " ++ model.description),
    .print (bannerLine ++ "\n") ]

/-- The two `ImportError` remediation prints of `download_via_sdk`. -/
def sdkImportErrorPrints : List Event :=
  [ .print "\n✗ Error: modelscope package not installed",
    .print "Please install it with: pip install modelscope" ]

/-- `download_via_sdk(model_key)`.  The catalog lookup on the first line is
outside the `try`, so an unknown key raises an uncaught `KeyError`; the
`ImportError` branch fires before `os.makedirs`, and every caught failure
returns `False`. -/
def download_via_sdk (env : Env) (fs : FS) (model_key : String) :
    Except PyError (Bool × FS × List Event) :=
  match lookupModel model_key with
  | none => .error (.keyError model_key)
  | some model =>
    if env.modelscopeAvailable then
      let fs1 := fs.addDir "pretrained_models"
      let ev1 := sdkHeader model ++
        [ Event.makedirs "pretrained_models",
          Event.snapshot model.repo model.local_dir ]
      if env.snapshotDownloadOk model.repo then
        .ok (true, fs1.addDir model.local_dir,
          ev1 ++ [.print ("\n✓ Successfully downloaded " ++ model.name ++
                          " to " ++ model.local_dir)])
      else
        .ok (false, fs1,
          ev1 ++ [.print ("\n✗ Error downloading " ++ model.name ++
                          ": <exception text>")])
    else
      .ok (false, fs, sdkHeader model ++ sdkImportErrorPrints)

/-- Python's `str.lower()`, modelled character-wise (the operator answers
compared by the script are one-letter ASCII strings). -/
def pyLower (s : String) : String := String.mk (s.data.map Char.toLower)

def gitHeader (model : ModelEntry) : List Event :=
  [ .print ("\n" ++ bannerLine),
    .print ("Downloading " ++ model.name ++ " via git clone..."),
    .print ("Description: " ++ model.description),
    .print (bannerLine ++ "\n") ]

/-- Warning prints and operator prompt emitted by `download_via_git` when
git-lfs is absent. -/
def lfsWarnEvents : List Event :=
  [ .print "✗ Warning: git-lfs is not installed!",
    .print "Please install git-lfs first:",
    .print "  - Ubuntu/Debian: sudo apt-get install git-lfs",
    .print "  - macOS: brew install git-lfs",
    .print "  - Windows: download from https://git-lfs.github.com/",
    .print "\nThen run: git lfs install",
    .promptUser "\nContinue anyway? (y/N): " ]

/-- `download_via_git(model_key)`.  Catalog lookup is again outside any
handler; if git-lfs is missing the operator is prompted and any answer
whose lowercasing is not `"y"` returns `False` before `os.makedirs`;
otherwise the clone is attempted and `CalledProcessError` /
`FileNotFoundError` are caught into `False`. -/
def download_via_git (env : Env) (fs : FS) (model_key : String) :
    Except PyError (Bool × FS × List Event) :=
  match lookupModel model_key with
  | none => .error (.keyError model_key)
  | some model =>
    let header := gitHeader model
    let proceed : List Event → Bool × FS × List Event := fun pre =>
      let fs1 := fs.addDir "pretrained_models"
      let ev := pre ++
        [ Event.makedirs "pretrained_models",
          Event.gitClone model.git_url model.local_dir ]
      if env.gitInstalled then
        if env.cloneOk model.git_url then
          (true, fs1.addDir model.local_dir,
           ev ++ [.print ("\n✓ Successfully downloaded " ++ model.name ++
                          " to " ++ model.local_dir)])
        else
          (false, fs1,
           ev ++ [.print ("\n✗ Error cloning " ++ model.name ++
                          ": <exception text>")])
      else
        (false, fs1, ev ++ [.print "\n✗ Error: git is not installed"])
    if check_git_lfs env then
      .ok (proceed header)
    else
      let warn := header ++ lfsWarnEvents
      if pyLower env.operatorResponse == "y" then
        .ok (proceed warn)
      else
        .ok (false, fs, warn)

/-- The fixed paths used by `install_ttsfrd()`. -/
def ttsfrd_dir : String := "pretrained_models/CosyVoice-ttsfrd"

def resource_zip : String := ttsfrd_dir ++ "/resource.zip"

def dependency_whl : String :=
  ttsfrd_dir ++ "/ttsfrd_dependency-0.1-py3-none-any.whl"

def ttsfrd_whl : String :=
  ttsfrd_dir ++ "/ttsfrd-0.4.2-cp310-cp310-linux_x86_64.whl"

/-- The two success prints at the end of `install_ttsfrd()`. -/
def installDonePrints : List Event :=
  [ .print "\n✓ Successfully installed ttsfrd package",
    .print "Note: ttsfrd is optional. If not installed, WeText will be used by default." ]

/-- Header prints of `install_ttsfrd()`. -/
def installHeader : List Event :=
  [ .print ("\n" ++ bannerLine),
    .print "Installing ttsfrd package...",
    .print (bannerLine ++ "\n") ]

/-- Message printed when the ttsfrd directory is missing (first
precondition of `install_ttsfrd()`). -/
def dirNotFoundEvents : List Event :=
  [ .print "\n✗ CosyVoice-ttsfrd directory not found. Please download it first." ]

/-- Message printed when `resource.zip` is missing (second precondition). -/
def zipNotFoundEvents : List Event :=
  [ .print ("✗ resource.zip not found in " ++ ttsfrd_dir) ]

/-- The extraction announcement and the attempted `unzip` invocation. -/
def extractAttemptEvents : List Event :=
  [ .print "Extracting resource.zip...",
    .unzipRun resource_zip ttsfrd_dir ]

/-- `FileNotFoundError` remediation prints for the missing `unzip` tool. -/
def unzipMissingPrints : List Event :=
  [ .print "\n✗ Error: unzip command not found",
    .print "Please install unzip first or manually extract resource.zip" ]

/-- The `CalledProcessError` handler print of `install_ttsfrd()`. -/
def installErrPrint : List Event :=
  [ .print "\n✗ Error installing ttsfrd: <exception text>" ]

/-- Announcement and attempted `pip install` of the dependency wheel. -/
def depInstallEvents : List Event :=
  [ .print "Installing ttsfrd_dependency-0.1-py3-none-any.whl...",
    .pipInstall dependency_whl ]

/-- Announcement and attempted `pip install` of the main wheel. -/
def mainInstallEvents : List Event :=
  [ .print "Installing ttsfrd-0.4.2-cp310-cp310-linux_x86_64.whl...",
    .pipInstall ttsfrd_whl ]

/-- Second half of `install_ttsfrd()`: the `ttsfrd_whl.exists()` check and
install, then the success prints.  `fs` is the filesystem after
extraction; wheel installation does not change the modelled file tree. -/
def installMainWhl (env : Env) (fs : FS) (ev : List Event) :
    Bool × FS × List Event :=
  if fs.fileExists ttsfrd_whl then
    let ev2 := ev ++ mainInstallEvents
    if env.pipOk ttsfrd_whl then
      (true, fs, ev2 ++ installDonePrints)
    else
      (false, fs, ev2 ++ installErrPrint)
  else
    (true, fs, ev ++ installDonePrints)

/-- `install_ttsfrd()`: precondition checks in source order (directory,
then `resource.zip`), extraction with `unzip -o` (attempted invocation; a
missing `unzip` raises `FileNotFoundError`, a non-zero exit raises
`CalledProcessError`, both caught into `False`), then the two optional
wheel installs, dependency first, each guarded by `.exists()` on the
post-extraction tree; a failing `pip` exits through `CalledProcessError`
as `False` before any later step. -/
def install_ttsfrd (env : Env) (fs : FS) : Bool × FS × List Event :=
  if fs.dirExists ttsfrd_dir then
    if fs.fileExists resource_zip then
      let evx := installHeader ++ extractAttemptEvents
      if env.unzipInstalled then
        if env.unzipOk then
          let fs2 := fs.addFiles env.archiveContents
          if fs2.fileExists dependency_whl then
            let evd := evx ++ depInstallEvents
            if env.pipOk dependency_whl then
              installMainWhl env fs2 evd
            else
              (false, fs2, evd ++ installErrPrint)
          else
            installMainWhl env fs2 evx
        else
          (false, fs, evx ++ installErrPrint)
      else
        (false, fs, evx ++ unzipMissingPrints)
    else
      (false, fs, installHeader ++ zipNotFoundEvents)
  else
    (false, fs, dirNotFoundEvents)

/-- The two transport strategies selectable by `--method`. -/
inductive Method where
  | sdk
  | git
deriving Repr, DecidableEq

/-- `download_func = download_via_git if args.method == 'git' else download_via_sdk`. -/
def download_func (m : Method) (env : Env) (fs : FS) (k : String) :
    Except PyError (Bool × FS × List Event) :=
  match m with
  | .sdk => download_via_sdk env fs k
  | .git => download_via_git env fs k

/-- The download loop of `main` (lines 265-268): runs `download_func` on
each requested key in order, counting successes.  The per-identifier
boolean results are kept as an explicit outcome list `(key, succeeded)`;
an uncaught exception aborts the remaining iterations. -/
def downloadLoop (m : Method) (env : Env) :
    List String → FS → Except PyError (Nat × List (String × Bool) × FS × List Event)
  | [], fs => .ok (0, [], fs, [])
  | k :: ks, fs =>
    match download_func m env fs k with
    | .error e => .error e
    | .ok (b, fs1, ev1) =>
      match downloadLoop m env ks fs1 with
      | .error e => .error e
      | .ok (n, outs, fs2, ev2) =>
        .ok ((if b then 1 else 0) + n, (k, b) :: outs, fs2, ev1 ++ ev2)

/-- The `Download Summary:` line printed at line 276 of the source. -/
def summary_line (succ total : Nat) : String :=
  "Download Summary: " ++ toString succ ++ "/" ++ toString total ++
    " models downloaded successfully"

/-- Observable result of one full run of `main` past argument parsing. -/
structure RunResult where
  successCount : Nat
  outcomes : List (String × Bool)
  /-- `some r` iff `install_ttsfrd()` was invoked, with its boolean result
  (which `main` discards). -/
  postInstall : Option Bool
  summaryLine : String
  fs : FS
  events : List Event
deriving Repr, DecidableEq

/-- `main` after argument parsing (lines 264-277): the download loop over
`models_to_download`, then `install_ttsfrd()` iff `--install-ttsfrd` was
given and `'ttsfrd' in models_to_download`, then the summary print.
`success_count` is fixed before the post-install step and the post-install
result is discarded. -/
def mainRun (env : Env) (fs : FS) (models_to_download : List String)
    (m : Method) (install_flag : Bool) : Except PyError RunResult :=
  match downloadLoop m env models_to_download fs with
  | .error e => .error e
  | .ok (n, outs, fs1, ev1) =>
    let total := models_to_download.length
    if install_flag && models_to_download.contains "ttsfrd" then
      match install_ttsfrd env fs1 with
      | (b, fs2, ev2) =>
        .ok ⟨n, outs, some b, summary_line n total, fs2,
             ev1 ++ ev2 ++ [.print (summary_line n total)]⟩
    else
      .ok ⟨n, outs, none, summary_line n total, fs1,
           ev1 ++ [.print (summary_line n total)]⟩

/-- The success boolean `download_via_sdk` computes for a catalog entry,
as a function of the environment alone. -/
def sdkOutcome (env : Env) (e : ModelEntry) : Bool :=
  env.modelscopeAvailable && env.snapshotDownloadOk e.repo

/-- The success boolean `download_via_git` computes for a catalog entry,
as a function of the environment alone. -/
def gitOutcome (env : Env) (e : ModelEntry) : Bool :=
  (check_git_lfs env || pyLower env.operatorResponse == "y") &&
    (env.gitInstalled && env.cloneOk e.git_url)

/-- The outcome recorded for key `k` by either transport: it depends only
on the environment, the method and `k` itself — not on the filesystem nor
on any other identifier of the batch. -/
def fetchOutcome (m : Method) (env : Env) (k : String) : Bool :=
  match lookupModel k with
  | none => false
  | some e =>
    match m with
    | .sdk => sdkOutcome env e
    | .git => gitOutcome env e

/-- Success boolean of a finished fetch, `none` when the fetch raised. -/
def resultBool : Except PyError (Bool × FS × List Event) → Option Bool
  | .ok (b, _, _) => some b
  | .error _ => none

/-- Concrete environment in which every external capability is present and
succeeds; the archive ships both wheel files. -/
def allOkEnv : Env where
  modelscopeAvailable := true
  snapshotDownloadOk := fun _ => true
  gitLfsInstalled := true
  operatorResponse := ""
  gitInstalled := true
  cloneOk := fun _ => true
  unzipInstalled := true
  unzipOk := true
  archiveContents := [dependency_whl, ttsfrd_whl]
  pipOk := fun _ => true

/-- Environment without the ModelScope SDK. -/
def noSdkEnv : Env := { allOkEnv with modelscopeAvailable := false }

/-- Environment without git-lfs, operator answering "n". -/
def noLfsEnv : Env :=
  { allOkEnv with gitLfsInstalled := false, operatorResponse := "n" }

/-- Environment without the unzip command. -/
def noUnzipEnv : Env := { allOkEnv with unzipInstalled := false }

/-- Environment where installing the dependency wheel fails. -/
def depFailEnv : Env :=
  { allOkEnv with pipOk := fun w => ¬ (w == dependency_whl) }

/-- Empty filesystem. -/
def fs0 : FS := ⟨[], []⟩

/-- Filesystem holding the downloaded ttsfrd directory with its archive. -/
def fsTtsfrd : FS := ⟨[ttsfrd_dir], [resource_zip]⟩

theorem download_func_ok (m : Method) (env : Env) (fs : FS) (k : String)
    (e : ModelEntry) (h : lookupModel k = some e) :
    resultBool (download_func m env fs k) = some (fetchOutcome m env k) := by
  have hf : fetchOutcome m env k =
      (match m with | .sdk => sdkOutcome env e | .git => gitOutcome env e) := by
    simp [fetchOutcome, h]
  cases m with
  | sdk =>
    simp only [download_func, download_via_sdk, h, hf, sdkOutcome]
    cases hm : env.modelscopeAvailable with
    | false => simp [resultBool]
    | true =>
      cases hs : env.snapshotDownloadOk e.repo with
      | false => simp [resultBool]
      | true => simp [resultBool]
  | git =>
    simp only [download_func, download_via_git, h, hf, gitOutcome]
    cases hl : check_git_lfs env with
    | false =>
      cases hr : pyLower env.operatorResponse == "y" with
      | false => simp [resultBool, hl, hr]
      | true =>
        cases hg : env.gitInstalled with
        | false => simp [resultBool, hl, hr, hg]
        | true =>
          cases hc : env.cloneOk e.git_url with
          | false => simp [resultBool, hl, hr, hg, hc]
          | true => simp [resultBool, hl, hr, hg, hc]
    | true =>
      cases hg : env.gitInstalled with
      | false => simp [resultBool, hl, hg]
      | true =>
        cases hc : env.cloneOk e.git_url with
        | false => simp [resultBool, hl, hg, hc]
        | true => simp [resultBool, hl, hg, hc]

theorem downloadLoop_spec (m : Method) (env : Env) (keys : List String)
    (h : ∀ k ∈ keys, (lookupModel k).isSome) (fs : FS) :
    ∃ fs' ev, downloadLoop m env keys fs =
      .ok ((keys.filter (fun k => fetchOutcome m env k)).length,
           keys.map (fun k => (k, fetchOutcome m env k)), fs', ev) := by
  induction keys generalizing fs with
  | nil => exact ⟨fs, [], by simp [downloadLoop]⟩
  | cons k ks ih =>
    obtain ⟨e, he⟩ := Option.isSome_iff_exists.mp (h k (by simp))
    have hb := download_func_ok m env fs k e he
    cases hd : download_func m env fs k with
    | error err => rw [hd] at hb; simp [resultBool] at hb
    | ok p =>
      obtain ⟨b, fs1, ev1⟩ := p
      rw [hd] at hb
      simp only [resultBool, Option.some.injEq] at hb
      obtain ⟨fs2, ev2, hrec⟩ := ih (fun x hx => h x (by simp [hx])) fs1
      refine ⟨fs2, ev1 ++ ev2, ?_⟩
      simp only [downloadLoop, hd, hrec]
      subst hb
      cases ho : fetchOutcome m env k with
      | false => simp [List.filter, ho]
      | true => simp [List.filter, ho, Nat.add_comm]

theorem mainRun_spec (env : Env) (fs : FS) (keys : List String) (m : Method)
    (flag : Bool) (h : ∀ k ∈ keys, (lookupModel k).isSome) :
    ∃ r, mainRun env fs keys m flag = .ok r ∧
      r.successCount = (keys.filter (fun k => fetchOutcome m env k)).length ∧
      r.outcomes = keys.map (fun k => (k, fetchOutcome m env k)) ∧
      r.summaryLine = summary_line r.successCount keys.length ∧
      r.postInstall.isSome = (flag && keys.contains "ttsfrd") ∧
      Event.print r.summaryLine ∈ r.events := by
  obtain ⟨fs1, ev1, hloop⟩ := downloadLoop_spec m env keys h fs
  cases hc : flag && keys.contains "ttsfrd" with
  | true =>
    rcases hi : install_ttsfrd env fs1 with ⟨b, fs2, ev2⟩
    refine ⟨⟨(keys.filter (fun k => fetchOutcome m env k)).length,
             keys.map (fun k => (k, fetchOutcome m env k)),
             some b,
             summary_line (keys.filter (fun k => fetchOutcome m env k)).length keys.length,
             fs2,
             ev1 ++ ev2 ++
               [.print (summary_line
                 (keys.filter (fun k => fetchOutcome m env k)).length keys.length)]⟩,
           ?_, rfl, rfl, rfl, by simp [hc], by simp⟩
    simp only [mainRun, hloop, hc, if_true, hi]
  | false =>
    refine ⟨⟨(keys.filter (fun k => fetchOutcome m env k)).length,
             keys.map (fun k => (k, fetchOutcome m env k)),
             none,
             summary_line (keys.filter (fun k => fetchOutcome m env k)).length keys.length,
             fs1,
             ev1 ++
               [.print (summary_line
                 (keys.filter (fun k => fetchOutcome m env k)).length keys.length)]⟩,
           ?_, rfl, rfl, rfl, by simp [hc], by simp⟩
    simp only [mainRun, hloop, hc, if_false, Bool.false_eq_true]

/-- Environment where only the snapshot download of CosyVoice-300M-SFT
fails; everything else is available and succeeds. -/
def sftFailEnv : Env :=
  { allOkEnv with snapshotDownloadOk := fun r => !(r == "iic/CosyVoice-300M-SFT") }

/-- Environment where every external capability is missing or failing. -/
def adverseEnv : Env where
  modelscopeAvailable := false
  snapshotDownloadOk := fun _ => false
  gitLfsInstalled := false
  operatorResponse := "n"
  gitInstalled := false
  cloneOk := fun _ => false
  unzipInstalled := false
  unzipOk := false
  archiveContents := []
  pipOk := fun _ => false

theorem map_pair_fst (f : String → Bool) (l : List String) :
    (l.map (fun k => (k, f k))).map Prod.fst = l := by
  induction l with
  | nil => rfl
  | cons a l ih => simp only [List.map_cons, ih]

/-- C1, counterexample: with the unknown identifier `"bogus"` first in the
batch, the run raises an uncaught `KeyError` (the `MODELS[model_key]`
subscript sits before the `try` block), so zero outcomes are recorded, no
`NotFound` outcome exists, and the remaining identifier `"sft"` is never
processed — contradicting the claim that |S| outcomes are recorded and
that processing continues past an unknown identifier. -/
theorem unknown_id_aborts_batch :
    mainRun allOkEnv fs0 ["bogus", "sft"] .sdk false =
      .error (.keyError "bogus") := rfl

/-- C1 (amended): for every requested sequence drawn from the Catalog —
the only sequences constructible through the CLI, whose argument parsing
rejects identifiers outside `MODELS` — the run records exactly |S|
download outcomes, one per requested identifier, in request order. -/
theorem batch_records_one_outcome_per_id (env : Env) (fs : FS)
    (keys : List String) (m : Method) (flag : Bool)
    (h : ∀ k ∈ keys, (lookupModel k).isSome) :
    ∃ r, mainRun env fs keys m flag = .ok r ∧
      r.outcomes.length = keys.length ∧
      r.outcomes.map Prod.fst = keys := by
  obtain ⟨r, hr, _, houts, _, _, _⟩ := mainRun_spec env fs keys m flag h
  refine ⟨r, hr, by simp [houts], ?_⟩
  rw [houts]
  exact map_pair_fst _ keys

/-- Witness for the amended C1 at a concrete two-identifier batch. -/
theorem batch_records_one_outcome_per_id_witness :
    (∀ k ∈ (["cosyvoice2", "ttsfrd"] : List String), (lookupModel k).isSome) ∧
    (∃ r, mainRun allOkEnv fs0 ["cosyvoice2", "ttsfrd"] .sdk false = .ok r ∧
       r.outcomes.length = (["cosyvoice2", "ttsfrd"] : List String).length ∧
       r.outcomes.map Prod.fst = ["cosyvoice2", "ttsfrd"]) :=
  ⟨by decide,
   batch_records_one_outcome_per_id allOkEnv fs0 ["cosyvoice2", "ttsfrd"]
     .sdk false (by decide)⟩

/-- C2: for every CLI-reachable batch and either transport, the outcome
recorded for each identifier is a function of the environment, the
transport and that identifier alone (so one identifier's fetch failure
neither aborts later identifiers nor alters any other identifier's
outcome), and the printed summary line is
`"<succeededCount>/<total> models downloaded successfully"`. -/
theorem failure_isolation_and_summary (env : Env) (fs : FS)
    (keys : List String) (m : Method) (flag : Bool)
    (h : ∀ k ∈ keys, (lookupModel k).isSome) :
    ∃ r, mainRun env fs keys m flag = .ok r ∧
      r.outcomes = keys.map (fun k => (k, fetchOutcome m env k)) ∧
      r.successCount = (keys.filter (fun k => fetchOutcome m env k)).length ∧
      r.summaryLine = "Download Summary: " ++ toString r.successCount ++ "/" ++
        toString keys.length ++ " models downloaded successfully" := by
  obtain ⟨r, hr, hn, ho, hs, _, _⟩ := mainRun_spec env fs keys m flag h
  exact ⟨r, hr, ho, hn, by rw [hs]; rfl⟩

/-- Witness for C2: a batch where `sft` fails and `ttsfrd` succeeds. -/
theorem failure_isolation_and_summary_witness :
    (∀ k ∈ (["sft", "ttsfrd"] : List String), (lookupModel k).isSome) ∧
    (∃ r, mainRun sftFailEnv fs0 ["sft", "ttsfrd"] .sdk false = .ok r ∧
       r.outcomes =
         (["sft", "ttsfrd"] : List String).map
           (fun k => (k, fetchOutcome .sdk sftFailEnv k)) ∧
       r.successCount =
         ((["sft", "ttsfrd"] : List String).filter
           (fun k => fetchOutcome .sdk sftFailEnv k)).length ∧
       r.summaryLine = "Download Summary: " ++ toString r.successCount ++ "/" ++
         toString (["sft", "ttsfrd"] : List String).length ++
         " models downloaded successfully") :=
  ⟨by decide,
   failure_isolation_and_summary sftFailEnv fs0 ["sft", "ttsfrd"] .sdk false
     (by decide)⟩

/-- C3: for every CLI-reachable batch, transport choice and environment
(missing SDK, missing git, failing external commands, missing unzip, ...),
the run returns normally — no exception escapes — every requested
identifier gets a boolean outcome, and the summary print is reached. -/
theorem no_unhandled_fault_reaches_summary (env : Env) (fs : FS)
    (keys : List String) (m : Method) (flag : Bool)
    (h : ∀ k ∈ keys, (lookupModel k).isSome) :
    ∃ r, mainRun env fs keys m flag = .ok r ∧
      r.outcomes.length = keys.length ∧
      Event.print r.summaryLine ∈ r.events := by
  obtain ⟨r, hr, _, houts, _, _, hev⟩ := mainRun_spec env fs keys m flag h
  exact ⟨r, hr, by simp [houts], hev⟩

/-- Witness for C3 in the fully adverse environment with the post-install
step requested. -/
theorem no_unhandled_fault_reaches_summary_witness :
    (∀ k ∈ (["ttsfrd"] : List String), (lookupModel k).isSome) ∧
    (∃ r, mainRun adverseEnv fs0 ["ttsfrd"] .git true = .ok r ∧
       r.outcomes.length = (["ttsfrd"] : List String).length ∧
       Event.print r.summaryLine ∈ r.events) :=
  ⟨by decide,
   no_unhandled_fault_reaches_summary adverseEnv fs0 ["ttsfrd"] .git true
     (by decide)⟩

/-- C4: the post-install step is invoked iff the `--install-ttsfrd` flag
is set and `"ttsfrd"` is among the requested identifiers (success of its
download is irrelevant: the environment is arbitrary), and the run with
the step invoked records exactly the same outcomes, success count and
summary line as the run without it. -/
theorem post_install_iff_flag_and_requested (env : Env) (fs : FS)
    (keys : List String) (m : Method) (flag : Bool)
    (h : ∀ k ∈ keys, (lookupModel k).isSome) :
    ∃ r r0, mainRun env fs keys m flag = .ok r ∧
      mainRun env fs keys m false = .ok r0 ∧
      r.postInstall.isSome = (flag && keys.contains "ttsfrd") ∧
      r0.postInstall = none ∧
      r.successCount = r0.successCount ∧
      r.outcomes = r0.outcomes ∧
      r.summaryLine = r0.summaryLine := by
  obtain ⟨r, hr, hn, ho, hs, hp, _⟩ := mainRun_spec env fs keys m flag h
  obtain ⟨r0, hr0, hn0, ho0, hs0, hp0, _⟩ := mainRun_spec env fs keys m false h
  refine ⟨r, r0, hr, hr0, hp, ?_, ?_, ?_, ?_⟩
  · cases hpi : r0.postInstall with
    | none => rfl
    | some b => rw [hpi] at hp0; simp at hp0
  · rw [hn, hn0]
  · rw [ho, ho0]
  · rw [hs, hs0, hn, hn0]

/-- Witness for C4: `ttsfrd` requested with the flag set, in the adverse
environment where its download and the install step both fail. -/
theorem post_install_iff_flag_and_requested_witness :
    (∀ k ∈ (["ttsfrd"] : List String), (lookupModel k).isSome) ∧
    (∃ r r0, mainRun adverseEnv fs0 ["ttsfrd"] .sdk true = .ok r ∧
       mainRun adverseEnv fs0 ["ttsfrd"] .sdk false = .ok r0 ∧
       r.postInstall.isSome = (true && (["ttsfrd"] : List String).contains "ttsfrd") ∧
       r0.postInstall = none ∧
       r.successCount = r0.successCount ∧
       r.outcomes = r0.outcomes ∧
       r.summaryLine = r0.summaryLine) :=
  ⟨by decide,
   post_install_iff_flag_and_requested adverseEnv fs0 ["ttsfrd"] .sdk true
     (by decide)⟩

theorem FS.addFile_dirs (fs : FS) (f : String) :
    (fs.addFile f).dirs = fs.dirs := by
  unfold FS.addFile
  split <;> rfl

theorem FS.addFiles_dirs (fs : FS) (l : List String) :
    (fs.addFiles l).dirs = fs.dirs := by
  induction l generalizing fs with
  | nil => rfl
  | cons a l ih =>
    show ((fs.addFile a).addFiles l).dirs = fs.dirs
    rw [ih, FS.addFile_dirs]

theorem FS.mem_addFile_files (fs : FS) (f g : String) :
    g ∈ (fs.addFile f).files ↔ g = f ∨ g ∈ fs.files := by
  unfold FS.addFile
  split
  next h =>
    have hf : f ∈ fs.files := List.elem_iff.mp h
    constructor
    · exact Or.inr
    · rintro (rfl | hg)
      · exact hf
      · exact hg
  next h => simp [List.mem_cons]

theorem FS.mem_addFiles_files (fs : FS) (l : List String) (g : String) :
    g ∈ (fs.addFiles l).files ↔ g ∈ l ∨ g ∈ fs.files := by
  induction l generalizing fs with
  | nil => simp [FS.addFiles]
  | cons a l ih =>
    show g ∈ ((fs.addFile a).addFiles l).files ↔ _
    rw [ih, FS.mem_addFile_files]
    simp [List.mem_cons]
    tauto

theorem FS.addFile_of_mem (fs : FS) (f : String) (h : f ∈ fs.files) :
    fs.addFile f = fs := by
  unfold FS.addFile
  rw [if_pos (List.elem_iff.mpr h)]

theorem FS.addFiles_of_forall_mem (fs : FS) (l : List String)
    (h : ∀ f ∈ l, f ∈ fs.files) : fs.addFiles l = fs := by
  induction l generalizing fs with
  | nil => rfl
  | cons a l ih =>
    show (fs.addFile a).addFiles l = fs
    rw [FS.addFile_of_mem fs a (h a (by simp))]
    exact ih fs (fun f hf => h f (by simp [hf]))

theorem FS.addFiles_idem (fs : FS) (l : List String) :
    (fs.addFiles l).addFiles l = fs.addFiles l :=
  FS.addFiles_of_forall_mem _ _
    (fun f hf => (FS.mem_addFiles_files fs l f).mpr (Or.inl hf))

theorem FS.dirExists_addFiles (fs : FS) (l : List String) (d : String) :
    (fs.addFiles l).dirExists d = fs.dirExists d := by
  unfold FS.dirExists
  rw [FS.addFiles_dirs]

theorem FS.fileExists_addFiles_of (fs : FS) (l : List String) (f : String)
    (h : fs.fileExists f = true) : (fs.addFiles l).fileExists f = true := by
  unfold FS.fileExists at *
  exact List.elem_iff.mpr
    ((FS.mem_addFiles_files fs l f).mpr (Or.inr (List.elem_iff.mp h)))

/-- C5: the two preconditions of `install_ttsfrd` are checked in order and
yield distinct terminal failures: a missing directory returns `False`
having printed only the directory-not-found message (the archive is not
consulted, nothing is extracted or installed), and a present directory
with a missing archive returns `False` with the archive message, again
without any extraction or installation event. -/
theorem install_preconditions_ordered (env : Env) (fs1 fs2 : FS)
    (h1 : fs1.dirExists ttsfrd_dir = false)
    (h2 : fs2.dirExists ttsfrd_dir = true)
    (h3 : fs2.fileExists resource_zip = false) :
    install_ttsfrd env fs1 = (false, fs1, dirNotFoundEvents) ∧
    install_ttsfrd env fs2 = (false, fs2, installHeader ++ zipNotFoundEvents) ∧
    dirNotFoundEvents ≠ installHeader ++ zipNotFoundEvents ∧
    (∀ z d, Event.unzipRun z d ∉ dirNotFoundEvents ++ installHeader ++ zipNotFoundEvents) ∧
    (∀ w, Event.pipInstall w ∉ dirNotFoundEvents ++ installHeader ++ zipNotFoundEvents) := by
  refine ⟨?_, ?_, ?_, ?_, ?_⟩
  · simp [install_ttsfrd, h1]
  · simp [install_ttsfrd, h2, h3]
  · simp [dirNotFoundEvents, installHeader, zipNotFoundEvents]
  · intro z d
    simp [dirNotFoundEvents, installHeader, zipNotFoundEvents]
  · intro w
    simp [dirNotFoundEvents, installHeader, zipNotFoundEvents]

/-- Witness for C5 at concrete filesystems. -/
theorem install_preconditions_ordered_witness :
    (fs0.dirExists ttsfrd_dir = false ∧
     (FS.mk [ttsfrd_dir] []).dirExists ttsfrd_dir = true ∧
     (FS.mk [ttsfrd_dir] []).fileExists resource_zip = false) ∧
    (install_ttsfrd allOkEnv fs0 = (false, fs0, dirNotFoundEvents) ∧
     install_ttsfrd allOkEnv (FS.mk [ttsfrd_dir] []) =
       (false, FS.mk [ttsfrd_dir] [], installHeader ++ zipNotFoundEvents) ∧
     dirNotFoundEvents ≠ installHeader ++ zipNotFoundEvents ∧
     (∀ z d, Event.unzipRun z d ∉ dirNotFoundEvents ++ installHeader ++ zipNotFoundEvents) ∧
     (∀ w, Event.pipInstall w ∉ dirNotFoundEvents ++ installHeader ++ zipNotFoundEvents)) :=
  ⟨⟨by decide, by decide, by decide⟩,
   install_preconditions_ordered allOkEnv fs0 (FS.mk [ttsfrd_dir] [])
     (by decide) (by decide) (by decide)⟩

/-- C10: with both preconditions satisfied, a missing `unzip` command is
caught into a `False` result carrying the remediation prints, and a
non-zero `unzip` exit is caught into a `False` result; in neither case is
any `pip install` attempted. -/
theorem unzip_failure_aborts_before_install (env1 env2 : Env) (fs : FS)
    (hd : fs.dirExists ttsfrd_dir = true)
    (hz : fs.fileExists resource_zip = true)
    (h1 : env1.unzipInstalled = false)
    (h2 : env2.unzipInstalled = true)
    (h3 : env2.unzipOk = false) :
    (install_ttsfrd env1 fs =
       (false, fs, installHeader ++ extractAttemptEvents ++ unzipMissingPrints) ∧
     Event.print "Please install unzip first or manually extract resource.zip" ∈
       installHeader ++ extractAttemptEvents ++ unzipMissingPrints ∧
     (∀ w, Event.pipInstall w ∉
        installHeader ++ extractAttemptEvents ++ unzipMissingPrints)) ∧
    (install_ttsfrd env2 fs =
       (false, fs, installHeader ++ extractAttemptEvents ++ installErrPrint) ∧
     (∀ w, Event.pipInstall w ∉
        installHeader ++ extractAttemptEvents ++ installErrPrint)) := by
  refine ⟨⟨?_, ?_, ?_⟩, ⟨?_, ?_⟩⟩
  · simp [install_ttsfrd, hd, hz, h1, List.append_assoc]
  · simp [unzipMissingPrints]
  · intro w
    simp [installHeader, extractAttemptEvents, unzipMissingPrints]
  · simp [install_ttsfrd, hd, hz, h2, h3, List.append_assoc]
  · intro w
    simp [installHeader, extractAttemptEvents, installErrPrint]

/-- Witness for C10 at the concrete downloaded-ttsfrd filesystem. -/
theorem unzip_failure_aborts_before_install_witness :
    (fsTtsfrd.dirExists ttsfrd_dir = true ∧
     fsTtsfrd.fileExists resource_zip = true ∧
     noUnzipEnv.unzipInstalled = false ∧
     adverseEnv.unzipInstalled = false) ∧
    ((install_ttsfrd noUnzipEnv fsTtsfrd =
        (false, fsTtsfrd, installHeader ++ extractAttemptEvents ++ unzipMissingPrints) ∧
      Event.print "Please install unzip first or manually extract resource.zip" ∈
        installHeader ++ extractAttemptEvents ++ unzipMissingPrints ∧
      (∀ w, Event.pipInstall w ∉
         installHeader ++ extractAttemptEvents ++ unzipMissingPrints)) ∧
     (install_ttsfrd { noUnzipEnv with unzipInstalled := true, unzipOk := false } fsTtsfrd =
        (false, fsTtsfrd, installHeader ++ extractAttemptEvents ++ installErrPrint) ∧
      (∀ w, Event.pipInstall w ∉
         installHeader ++ extractAttemptEvents ++ installErrPrint))) :=
  ⟨⟨by decide, by decide, by decide, by decide⟩,
   unzip_failure_aborts_before_install noUnzipEnv
     { noUnzipEnv with unzipInstalled := true, unzipOk := false } fsTtsfrd
     (by decide) (by decide) (by decide) (by decide) (by decide)⟩

/-- C7: when git-lfs is absent and the operator's answer does not lower-case
to "y", the clone transport returns `succeeded=false` with the filesystem
untouched, no directory-creation and no clone invocation in its trace, and
no exception raised to the caller. -/
theorem clone_declined_no_effects (env : Env) (fs : FS) (k : String)
    (e : ModelEntry) (h : lookupModel k = some e)
    (hl : check_git_lfs env = false)
    (hr : (pyLower env.operatorResponse == "y") = false) :
    download_via_git env fs k = .ok (false, fs, gitHeader e ++ lfsWarnEvents) ∧
    (∀ u d, Event.gitClone u d ∉ gitHeader e ++ lfsWarnEvents) ∧
    (∀ d, Event.makedirs d ∉ gitHeader e ++ lfsWarnEvents) := by
  refine ⟨?_, ?_, ?_⟩
  · simp [download_via_git, h, hl, hr]
  · intro u d
    simp [gitHeader, lfsWarnEvents]
  · intro d
    simp [gitHeader, lfsWarnEvents]

/-- Witness for C7: operator answers "n" for the `sft` model. -/
theorem clone_declined_no_effects_witness :
    (lookupModel "sft" = some ⟨"CosyVoice-300M-SFT", "iic/CosyVoice-300M-SFT",
       "pretrained_models/CosyVoice-300M-SFT",
       "https://www.modelscope.cn/iic/CosyVoice-300M-SFT.git",
       "CosyVoice 300M SFT (Supervised Fine-Tuning) model"⟩ ∧
     check_git_lfs noLfsEnv = false ∧
     (pyLower noLfsEnv.operatorResponse == "y") = false) ∧
    (download_via_git noLfsEnv fs0 "sft" =
       .ok (false, fs0,
            gitHeader ⟨"CosyVoice-300M-SFT", "iic/CosyVoice-300M-SFT",
              "pretrained_models/CosyVoice-300M-SFT",
              "https://www.modelscope.cn/iic/CosyVoice-300M-SFT.git",
              "CosyVoice 300M SFT (Supervised Fine-Tuning) model"⟩ ++ lfsWarnEvents) ∧
     (∀ u d, Event.gitClone u d ∉
        gitHeader ⟨"CosyVoice-300M-SFT", "iic/CosyVoice-300M-SFT",
          "pretrained_models/CosyVoice-300M-SFT",
          "https://www.modelscope.cn/iic/CosyVoice-300M-SFT.git",
          "CosyVoice 300M SFT (Supervised Fine-Tuning) model"⟩ ++ lfsWarnEvents) ∧
     (∀ d, Event.makedirs d ∉
        gitHeader ⟨"CosyVoice-300M-SFT", "iic/CosyVoice-300M-SFT",
          "pretrained_models/CosyVoice-300M-SFT",
          "https://www.modelscope.cn/iic/CosyVoice-300M-SFT.git",
          "CosyVoice 300M SFT (Supervised Fine-Tuning) model"⟩ ++ lfsWarnEvents)) :=
  ⟨⟨by decide, by decide, by decide⟩,
   clone_declined_no_effects noLfsEnv fs0 "sft" _ (by decide) (by decide) (by decide)⟩

/-- C9: when the ModelScope import fails the SDK transport returns
`succeeded=false` with the remediation print, the filesystem untouched and
neither a directory creation nor a snapshot download in its trace: the
module import sits before the `os.makedirs` call. -/
theorem sdk_missing_no_effects (env : Env) (fs : FS) (k : String)
    (e : ModelEntry) (h : lookupModel k = some e)
    (hm : env.modelscopeAvailable = false) :
    download_via_sdk env fs k = .ok (false, fs, sdkHeader e ++ sdkImportErrorPrints) ∧
    Event.print "Please install it with: pip install modelscope" ∈
      sdkHeader e ++ sdkImportErrorPrints ∧
    (∀ d, Event.makedirs d ∉ sdkHeader e ++ sdkImportErrorPrints) ∧
    (∀ rp d, Event.snapshot rp d ∉ sdkHeader e ++ sdkImportErrorPrints) := by
  refine ⟨?_, ?_, ?_, ?_⟩
  · simp [download_via_sdk, h, hm]
  · simp [sdkImportErrorPrints]
  · intro d
    simp [sdkHeader, sdkImportErrorPrints]
  · intro rp d
    simp [sdkHeader, sdkImportErrorPrints]

/-- Witness for C9 for the `sft` model without the SDK installed. -/
theorem sdk_missing_no_effects_witness :
    (lookupModel "sft" = some ⟨"CosyVoice-300M-SFT", "iic/CosyVoice-300M-SFT",
       "pretrained_models/CosyVoice-300M-SFT",
       "https://www.modelscope.cn/iic/CosyVoice-300M-SFT.git",
       "CosyVoice 300M SFT (Supervised Fine-Tuning) model"⟩ ∧
     noSdkEnv.modelscopeAvailable = false) ∧
    (download_via_sdk noSdkEnv fs0 "sft" =
       .ok (false, fs0,
            sdkHeader ⟨"CosyVoice-300M-SFT", "iic/CosyVoice-300M-SFT",
              "pretrained_models/CosyVoice-300M-SFT",
              "https://www.modelscope.cn/iic/CosyVoice-300M-SFT.git",
              "CosyVoice 300M SFT (Supervised Fine-Tuning) model"⟩ ++ sdkImportErrorPrints) ∧
     Event.print "Please install it with: pip install modelscope" ∈
       sdkHeader ⟨"CosyVoice-300M-SFT", "iic/CosyVoice-300M-SFT",
         "pretrained_models/CosyVoice-300M-SFT",
         "https://www.modelscope.cn/iic/CosyVoice-300M-SFT.git",
         "CosyVoice 300M SFT (Supervised Fine-Tuning) model"⟩ ++ sdkImportErrorPrints ∧
     (∀ d, Event.makedirs d ∉
        sdkHeader ⟨"CosyVoice-300M-SFT", "iic/CosyVoice-300M-SFT",
          "pretrained_models/CosyVoice-300M-SFT",
          "https://www.modelscope.cn/iic/CosyVoice-300M-SFT.git",
          "CosyVoice 300M SFT (Supervised Fine-Tuning) model"⟩ ++ sdkImportErrorPrints) ∧
     (∀ rp d, Event.snapshot rp d ∉
        sdkHeader ⟨"CosyVoice-300M-SFT", "iic/CosyVoice-300M-SFT",
          "pretrained_models/CosyVoice-300M-SFT",
          "https://www.modelscope.cn/iic/CosyVoice-300M-SFT.git",
          "CosyVoice 300M SFT (Supervised Fine-Tuning) model"⟩ ++ sdkImportErrorPrints)) :=
  ⟨⟨by decide, by decide⟩,
   sdk_missing_no_effects noSdkEnv fs0 "sft" _ (by decide) (by decide)⟩

/-- Events of the optional main-wheel phase, as a function of the
post-extraction tree. -/
def mainTail (env : Env) (fs2 : FS) : List Event :=
  if fs2.fileExists ttsfrd_whl then
    if env.pipOk ttsfrd_whl then mainInstallEvents ++ installDonePrints
    else mainInstallEvents ++ installErrPrint
  else installDonePrints

/-- Events of the wheel-installation phase (dependency wheel first), as a
function of the post-extraction tree. -/
def installTail (env : Env) (fs2 : FS) : List Event :=
  if fs2.fileExists dependency_whl then
    if env.pipOk dependency_whl then depInstallEvents ++ mainTail env fs2
    else depInstallEvents ++ installErrPrint
  else mainTail env fs2

/-- Success bit of the wheel-installation phase: each wheel must be either
absent or installed successfully, and a failed dependency install masks
the main wheel entirely. -/
def installOutcome (env : Env) (fs2 : FS) : Bool :=
  (!(fs2.fileExists dependency_whl) || env.pipOk dependency_whl) &&
  (!(fs2.fileExists ttsfrd_whl) || env.pipOk ttsfrd_whl)

theorem install_ttsfrd_run (env : Env) (fs : FS)
    (hd : fs.dirExists ttsfrd_dir = true)
    (hz : fs.fileExists resource_zip = true)
    (hui : env.unzipInstalled = true)
    (huo : env.unzipOk = true) :
    install_ttsfrd env fs =
      (installOutcome env (fs.addFiles env.archiveContents),
       fs.addFiles env.archiveContents,
       installHeader ++ extractAttemptEvents ++
         installTail env (fs.addFiles env.archiveContents)) := by
  simp only [install_ttsfrd, hd, hz, hui, huo, if_true]
  cases hdep : (fs.addFiles env.archiveContents).fileExists dependency_whl with
  | false =>
    cases hmw : (fs.addFiles env.archiveContents).fileExists ttsfrd_whl with
    | false =>
      simp [installMainWhl, installOutcome, installTail, mainTail,
            hdep, hmw, List.append_assoc]
    | true =>
      cases hpm : env.pipOk ttsfrd_whl with
      | false =>
        simp [installMainWhl, installOutcome, installTail, mainTail,
              hdep, hmw, hpm, List.append_assoc]
      | true =>
        simp [installMainWhl, installOutcome, installTail, mainTail,
              hdep, hmw, hpm, List.append_assoc]
  | true =>
    cases hpd : env.pipOk dependency_whl with
    | false =>
      simp [installOutcome, installTail, hdep, hpd, List.append_assoc]
    | true =>
      cases hmw : (fs.addFiles env.archiveContents).fileExists ttsfrd_whl with
      | false =>
        simp [installMainWhl, installOutcome, installTail, mainTail,
              hdep, hpd, hmw, List.append_assoc]
      | true =>
        cases hpm : env.pipOk ttsfrd_whl with
        | false =>
          simp [installMainWhl, installOutcome, installTail, mainTail,
                hdep, hpd, hmw, hpm, List.append_assoc]
        | true =>
          simp [installMainWhl, installOutcome, installTail, mainTail,
                hdep, hpd, hmw, hpm, List.append_assoc]

theorem dep_ne_main : dependency_whl ≠ ttsfrd_whl := by decide

theorem dep_pip_mem_installTail (env : Env) (fs2 : FS) :
    Event.pipInstall dependency_whl ∈ installTail env fs2 ↔
      fs2.fileExists dependency_whl = true := by
  unfold installTail mainTail
  cases hdep : fs2.fileExists dependency_whl with
  | false =>
    cases hmw : fs2.fileExists ttsfrd_whl <;>
      cases hpm : env.pipOk ttsfrd_whl <;>
        simp [depInstallEvents, mainInstallEvents, installDonePrints,
              installErrPrint, dep_ne_main]
  | true =>
    cases hpd : env.pipOk dependency_whl <;>
      cases hmw : fs2.fileExists ttsfrd_whl <;>
        cases hpm : env.pipOk ttsfrd_whl <;>
          simp [depInstallEvents, mainInstallEvents, installDonePrints,
                installErrPrint]

theorem main_pip_mem_installTail (env : Env) (fs2 : FS) :
    Event.pipInstall ttsfrd_whl ∈ installTail env fs2 ↔
      (fs2.fileExists ttsfrd_whl = true ∧
       (fs2.fileExists dependency_whl = false ∨ env.pipOk dependency_whl = true)) := by
  unfold installTail mainTail
  cases hdep : fs2.fileExists dependency_whl with
  | false =>
    cases hmw : fs2.fileExists ttsfrd_whl <;>
      cases hpm : env.pipOk ttsfrd_whl <;>
        simp [depInstallEvents, mainInstallEvents, installDonePrints,
              installErrPrint]
  | true =>
    cases hpd : env.pipOk dependency_whl <;>
      cases hmw : fs2.fileExists ttsfrd_whl <;>
        cases hpm : env.pipOk ttsfrd_whl <;>
          simp [depInstallEvents, mainInstallEvents, installDonePrints,
                installErrPrint, Ne.symm dep_ne_main]

/-- C6: with the preconditions satisfied and extraction succeeding,
extraction happens first and precedes every install event; the dependency
wheel is installed iff present after extraction and the main wheel iff
present and not masked by a failed dependency install (absence is silently
skipped); a present-but-failing dependency install yields `False` and
skips the main wheel; a failing main install yields `False`; both wheels
absent still yields `True`; and when both wheels install, the dependency
wheel's `pip install` strictly precedes the main wheel's. -/
theorem install_steps_order_and_abort (env : Env) (fs : FS)
    (hd : fs.dirExists ttsfrd_dir = true)
    (hz : fs.fileExists resource_zip = true)
    (hui : env.unzipInstalled = true)
    (huo : env.unzipOk = true) :
    ((install_ttsfrd env fs).2.2 =
        (installHeader ++ [Event.print "Extracting resource.zip..."]) ++
          Event.unzipRun resource_zip ttsfrd_dir ::
            installTail env (fs.addFiles env.archiveContents) ∧
      (∀ w, Event.pipInstall w ∉
         installHeader ++ [Event.print "Extracting resource.zip..."])) ∧
    (Event.pipInstall dependency_whl ∈ (install_ttsfrd env fs).2.2 ↔
      (fs.addFiles env.archiveContents).fileExists dependency_whl = true) ∧
    (Event.pipInstall ttsfrd_whl ∈ (install_ttsfrd env fs).2.2 ↔
      ((fs.addFiles env.archiveContents).fileExists ttsfrd_whl = true ∧
       ((fs.addFiles env.archiveContents).fileExists dependency_whl = false ∨
        env.pipOk dependency_whl = true))) ∧
    ((fs.addFiles env.archiveContents).fileExists dependency_whl = true →
      env.pipOk dependency_whl = false →
      (install_ttsfrd env fs).1 = false ∧
        Event.pipInstall ttsfrd_whl ∉ (install_ttsfrd env fs).2.2) ∧
    (((fs.addFiles env.archiveContents).fileExists dependency_whl = false ∨
        env.pipOk dependency_whl = true) →
      (fs.addFiles env.archiveContents).fileExists ttsfrd_whl = true →
      env.pipOk ttsfrd_whl = false →
      (install_ttsfrd env fs).1 = false) ∧
    ((fs.addFiles env.archiveContents).fileExists dependency_whl = false →
      (fs.addFiles env.archiveContents).fileExists ttsfrd_whl = false →
      (install_ttsfrd env fs).1 = true) ∧
    ((fs.addFiles env.archiveContents).fileExists dependency_whl = true →
      env.pipOk dependency_whl = true →
      (fs.addFiles env.archiveContents).fileExists ttsfrd_whl = true →
      ∃ pre post,
        (install_ttsfrd env fs).2.2 =
          pre ++ Event.pipInstall dependency_whl ::
            (Event.print "Installing ttsfrd-0.4.2-cp310-cp310-linux_x86_64.whl..." ::
              Event.pipInstall ttsfrd_whl :: post)) := by
  have hrun := install_ttsfrd_run env fs hd hz hui huo
  refine ⟨⟨?_, ?_⟩, ?_, ?_, ?_, ?_, ?_, ?_⟩
  · simp [hrun, extractAttemptEvents, List.append_assoc]
  · intro w
    simp [installHeader]
  · simp [hrun, List.mem_append, installHeader, extractAttemptEvents,
          dep_pip_mem_installTail]
  · simp [hrun, List.mem_append, installHeader, extractAttemptEvents,
          main_pip_mem_installTail]
  · intro hdep hpd
    constructor
    · simp [hrun, installOutcome, hdep, hpd]
    · simp [hrun, List.mem_append, installHeader, extractAttemptEvents,
            main_pip_mem_installTail, hdep, hpd]
  · intro h1 h2 h3
    simp [hrun, installOutcome, h2, h3]
  · intro h1 h2
    simp [hrun, installOutcome, h1, h2]
  · intro h1 h2 h3
    refine ⟨installHeader ++ extractAttemptEvents ++
              [Event.print "Installing ttsfrd_dependency-0.1-py3-none-any.whl..."],
            (if env.pipOk ttsfrd_whl then installDonePrints else installErrPrint), ?_⟩
    cases hpm : env.pipOk ttsfrd_whl <;>
      simp [hrun, installTail, mainTail, h1, h2, h3, hpm,
            depInstallEvents, mainInstallEvents, List.append_assoc]

/-- Witness for C6 at the downloaded-ttsfrd filesystem where the archive
ships both wheels and every install succeeds. -/
theorem install_steps_order_and_abort_witness :
    (fsTtsfrd.dirExists ttsfrd_dir = true ∧
     fsTtsfrd.fileExists resource_zip = true ∧
     allOkEnv.unzipInstalled = true ∧ allOkEnv.unzipOk = true) ∧
    (((install_ttsfrd allOkEnv fsTtsfrd).2.2 =
        (installHeader ++ [Event.print "Extracting resource.zip..."]) ++
          Event.unzipRun resource_zip ttsfrd_dir ::
            installTail allOkEnv (fsTtsfrd.addFiles allOkEnv.archiveContents) ∧
      (∀ w, Event.pipInstall w ∉
         installHeader ++ [Event.print "Extracting resource.zip..."])) ∧
    (Event.pipInstall dependency_whl ∈ (install_ttsfrd allOkEnv fsTtsfrd).2.2 ↔
      (fsTtsfrd.addFiles allOkEnv.archiveContents).fileExists dependency_whl = true) ∧
    (Event.pipInstall ttsfrd_whl ∈ (install_ttsfrd allOkEnv fsTtsfrd).2.2 ↔
      ((fsTtsfrd.addFiles allOkEnv.archiveContents).fileExists ttsfrd_whl = true ∧
       ((fsTtsfrd.addFiles allOkEnv.archiveContents).fileExists dependency_whl = false ∨
        allOkEnv.pipOk dependency_whl = true))) ∧
    ((fsTtsfrd.addFiles allOkEnv.archiveContents).fileExists dependency_whl = true →
      allOkEnv.pipOk dependency_whl = false →
      (install_ttsfrd allOkEnv fsTtsfrd).1 = false ∧
        Event.pipInstall ttsfrd_whl ∉ (install_ttsfrd allOkEnv fsTtsfrd).2.2) ∧
    (((fsTtsfrd.addFiles allOkEnv.archiveContents).fileExists dependency_whl = false ∨
        allOkEnv.pipOk dependency_whl = true) →
      (fsTtsfrd.addFiles allOkEnv.archiveContents).fileExists ttsfrd_whl = true →
      allOkEnv.pipOk ttsfrd_whl = false →
      (install_ttsfrd allOkEnv fsTtsfrd).1 = false) ∧
    ((fsTtsfrd.addFiles allOkEnv.archiveContents).fileExists dependency_whl = false →
      (fsTtsfrd.addFiles allOkEnv.archiveContents).fileExists ttsfrd_whl = false →
      (install_ttsfrd allOkEnv fsTtsfrd).1 = true) ∧
    ((fsTtsfrd.addFiles allOkEnv.archiveContents).fileExists dependency_whl = true →
      allOkEnv.pipOk dependency_whl = true →
      (fsTtsfrd.addFiles allOkEnv.archiveContents).fileExists ttsfrd_whl = true →
      ∃ pre post,
        (install_ttsfrd allOkEnv fsTtsfrd).2.2 =
          pre ++ Event.pipInstall dependency_whl ::
            (Event.print "Installing ttsfrd-0.4.2-cp310-cp310-linux_x86_64.whl..." ::
              Event.pipInstall ttsfrd_whl :: post))) :=
  ⟨⟨by decide, by decide, by decide, by decide⟩,
   install_steps_order_and_abort allOkEnv fsTtsfrd
     (by decide) (by decide) (by decide) (by decide)⟩

/-- C8: `install_ttsfrd` is idempotent once the directory and archive are
present: re-running it on the filesystem produced by the first run yields
exactly the same terminal result, the same file tree (extraction with
overwrite adds no new files the second time) and the same trace. -/
theorem install_ttsfrd_idempotent (env : Env) (fs : FS)
    (hd : fs.dirExists ttsfrd_dir = true)
    (hz : fs.fileExists resource_zip = true) :
    install_ttsfrd env ((install_ttsfrd env fs).2.1) = install_ttsfrd env fs := by
  cases hui : env.unzipInstalled with
  | false =>
    have h1 : install_ttsfrd env fs =
        (false, fs, installHeader ++ extractAttemptEvents ++ unzipMissingPrints) := by
      simp [install_ttsfrd, hd, hz, hui, List.append_assoc]
    rw [h1]
    simpa using h1
  | true =>
    cases huo : env.unzipOk with
    | false =>
      have h1 : install_ttsfrd env fs =
          (false, fs, installHeader ++ extractAttemptEvents ++ installErrPrint) := by
        simp [install_ttsfrd, hd, hz, hui, huo, List.append_assoc]
      rw [h1]
      simpa using h1
    | true =>
      have h2d : (fs.addFiles env.archiveContents).dirExists ttsfrd_dir = true := by
        rw [FS.dirExists_addFiles]
        exact hd
      have h2z : (fs.addFiles env.archiveContents).fileExists resource_zip = true :=
        FS.fileExists_addFiles_of fs env.archiveContents resource_zip hz
      have h1 := install_ttsfrd_run env fs hd hz hui huo
      have h2 := install_ttsfrd_run env (fs.addFiles env.archiveContents)
        h2d h2z hui huo
      rw [h1]
      show install_ttsfrd env (fs.addFiles env.archiveContents) =
        (installOutcome env (fs.addFiles env.archiveContents),
         fs.addFiles env.archiveContents,
         installHeader ++ extractAttemptEvents ++
           installTail env (fs.addFiles env.archiveContents))
      rw [h2, FS.addFiles_idem]

/-- Witness for C8: a double run on the concrete downloaded tree. -/
theorem install_ttsfrd_idempotent_witness :
    (fsTtsfrd.dirExists ttsfrd_dir = true ∧
     fsTtsfrd.fileExists resource_zip = true) ∧
    install_ttsfrd allOkEnv ((install_ttsfrd allOkEnv fsTtsfrd).2.1) =
      install_ttsfrd allOkEnv fsTtsfrd :=
  ⟨⟨by decide, by decide⟩,
   install_ttsfrd_idempotent allOkEnv fsTtsfrd (by decide) (by decide)⟩

end DownloadModel
